import Mathlib

/-!
Shallow embedding of `src/gusto/gusto.py`, a small Gusto SDK consisting of
two classes:

* `GustoAuth` — holds the current refresh token and performs OAuth token
  exchanges (`oauth`, with `authorize` / `access_token` wrappers, plus
  `put` / `get` accessors and `__str__`).
* `Gusto` — holds a bearer access token and issues authenticated GET
  requests (`me`, `company_id`, `get_contractors`, `get_employees`).

Python values flowing through the code (parsed JSON, `None`, tokens) are
modelled by the `Json` type; Python exceptions by `PyErr`; the HTTP
collaborator (the `requests` library together with the remote server) by an
oracle function `Request → HttpOutcome` supplied to each operation.  Each
operation returns its result (`Except PyErr _`), the post-state of the
object, and the list of HTTP requests it issued, in order.
-/

/-- A Python/JSON value: `None`, booleans, integers, strings, lists and
string-keyed dicts (the shapes produced by `response.json()`). -/
inductive Json where
  | null : Json
  | bool (b : Bool) : Json
  | num (n : Int) : Json
  | str (s : String) : Json
  | arr (xs : List Json) : Json
  | obj (fields : List (String × Json)) : Json

/-- Python exceptions the embedded code can raise.  `oauthExchangeError`
models the `raise Exception(error, error_description)` in `GustoAuth.oauth`
(the spec's `OAuthExchangeError`); `httpError` models a transport-level
exception raised by the `requests` collaborator; `jsonDecodeError` models a
`response.json()` parse failure; `malformedProfile` is the spec's
`MalformedProfileError`, which the source never raises — it exists in the
model only so specification claims about it can be stated. -/
inductive PyErr where
  | keyError (k : String) : PyErr
  | keyErrorIdx (i : Nat) : PyErr
  | indexError : PyErr
  | typeError (msg : String) : PyErr
  | attributeError (msg : String) : PyErr
  | oauthExchangeError (code description : Json) : PyErr
  | httpError (msg : String) : PyErr
  | jsonDecodeError : PyErr
  | malformedProfile : PyErr

/-- Python subscripting `x[k]` with a string key `k`: dict lookup
(`KeyError` when absent), `TypeError` on lists/strings/scalars. -/
def Json.getStr : Json → String → Except PyErr Json
  | .obj fields, k =>
    match fields.lookup k with
    | some v => .ok v
    | none => .error (.keyError k)
  | .arr _, _ => .error (.typeError "list indices must be integers")
  | .str _, _ => .error (.typeError "string indices must be integers")
  | _, _ => .error (.typeError "object is not subscriptable")

/-- Python subscripting `x[i]` with a non-negative int literal `i`: list
indexing (`IndexError` when out of range), string indexing (a one-character
string), `KeyError` on dicts (JSON dict keys are strings, never ints),
`TypeError` on scalars. -/
def Json.getIdx : Json → Nat → Except PyErr Json
  | .arr xs, i =>
    match xs.get? i with
    | some v => .ok v
    | none => .error .indexError
  | .str s, i =>
    match s.toList.get? i with
    | some c => .ok (.str (String.singleton c))
    | none => .error .indexError
  | .obj _, i => .error (.keyErrorIdx i)
  | _, _ => .error (.typeError "object is not subscriptable")

/-- Python `str()` of a JSON value, as used by the f-string interpolation
`f"/v1/companies/{self.company_id()}/..."`. -/
def Json.pyStr : Json → String
  | .null => "None"
  | .bool b => if b then "True" else "False"
  | .num n => toString n
  | .str s => s
  | .arr _ => "[...]"
  | .obj _ => "{...}"

/-- Process configuration read from the environment at import time:
`CLIENT_ID = os.environ["CLIENT_ID"]`, `SECRET = os.environ["SECRET"]`. -/
structure Config where
  client_id : String
  secret : String

/-- `BASE_URL = "https://api.gusto-demo.com"`. -/
def BASE_URL : String := "https://api.gusto-demo.com"

/-- `CALLBACK_URL = "http://localhost:5000/callback"`. -/
def CALLBACK_URL : String := "http://localhost:5000/callback"

/-- One HTTP request as handed to the `requests` library: method, URL,
headers, and the JSON body for POSTs (`json=data`). -/
structure Request where
  method : String
  url : String
  headers : List (String × String)
  body : Option Json

/-- What the HTTP collaborator does with a request: either a response is
received — carrying its status code and the outcome of `response.json()` —
or the `requests` call itself raises (transport failure).  The source never
inspects the status code. -/
inductive HttpOutcome where
  | response (status : Nat) (jsonBody : Except PyErr Json) : HttpOutcome
  | raised (e : PyErr) : HttpOutcome

/-- The HTTP collaborator, as an oracle mapping each request to its
outcome. -/
def Http : Type := Request → HttpOutcome

/-- `class GustoAuth`: holds the current refresh token
(`self.refresh_token`, `None` when constructed without one). -/
structure GustoAuth where
  refresh_token : Json

/-- `GustoAuth.put(new_token)`: replace the held refresh token. -/
def GustoAuth.put (a : GustoAuth) (new_token : Json) : GustoAuth :=
  { a with refresh_token := new_token }

/-- `GustoAuth.get()`: the currently held refresh token. -/
def GustoAuth.get (a : GustoAuth) : Json :=
  a.refresh_token

/-- The request body `data` built by `GustoAuth.oauth`: client credentials
and redirect URI, then either
`{grant_type: "refresh_token", refresh_token: token}` or
`{grant_type: "authorization_code", code: token}`. -/
def tokenRequestBody (cfg : Config) (token : Json) (refresh : Bool) : Json :=
  if refresh then
    .obj [("client_id", .str cfg.client_id), ("client_secret", .str cfg.secret),
          ("redirect_uri", .str CALLBACK_URL),
          ("grant_type", .str "refresh_token"), ("refresh_token", token)]
  else
    .obj [("client_id", .str cfg.client_id), ("client_secret", .str cfg.secret),
          ("redirect_uri", .str CALLBACK_URL),
          ("grant_type", .str "authorization_code"), ("code", token)]

/-- The POST issued by `GustoAuth.oauth`:
`requests.post(BASE_URL + "/oauth/token", json=data, headers={"Content-Type": "application/json"})`. -/
def oauthRequest (cfg : Config) (token : Json) (refresh : Bool) : Request :=
  { method := "POST"
    url := BASE_URL ++ "/oauth/token"
    headers := [("Content-Type", "application/json")]
    body := some (tokenRequestBody cfg token refresh) }

/-- `GustoAuth.oauth(token, refresh=False)`: build the grant request, POST
it, and handle the parsed response exactly as the source does:

* if `requests.post` raises, or `response.json()` fails, that error
  propagates;
* `"error" in response.json().keys()` — on a non-dict body, `.keys()`
  raises `AttributeError`; when the key is present the code evaluates
  `response.json()["error"]` and then `response.json()["error_description"]`
  (a `KeyError` if the latter is absent) and raises the two-argument
  exception;
* otherwise `refresh_token = response.json()["refresh_token"]` (a
  `KeyError` if absent), then `self.put(refresh_token)`, then
  `access_token = response.json()["access_token"]` (a `KeyError` if absent
  — note that `put` has already run), and the access token is returned. -/
def GustoAuth.oauth (a : GustoAuth) (cfg : Config) (token : Json)
    (refresh : Bool) (http : Http) : Except PyErr Json × GustoAuth × List Request :=
  let req := oauthRequest cfg token refresh
  match http req with
  | .raised e => (.error e, a, [req])
  | .response _ jsonBody =>
    match jsonBody with
    | .error e => (.error e, a, [req])
    | .ok (.obj fields) =>
      match fields.lookup "error" with
      | some code =>
        match fields.lookup "error_description" with
        | some description =>
          (.error (.oauthExchangeError code description), a, [req])
        | none => (.error (.keyError "error_description"), a, [req])
      | none =>
        match fields.lookup "refresh_token" with
        | none => (.error (.keyError "refresh_token"), a, [req])
        | some rt =>
          let a' := a.put rt
          match fields.lookup "access_token" with
          | none => (.error (.keyError "access_token"), a', [req])
          | some at_ => (.ok at_, a', [req])
    | .ok _ => (.error (.attributeError "keys"), a, [req])

/-- `GustoAuth.authorize(token)`: `return self.oauth(token)`. -/
def GustoAuth.authorize (a : GustoAuth) (cfg : Config) (token : Json)
    (http : Http) : Except PyErr Json × GustoAuth × List Request :=
  a.oauth cfg token false http

/-- `GustoAuth.access_token()`: `return self.oauth(self.get(), refresh=True)`. -/
def GustoAuth.access_token (a : GustoAuth) (cfg : Config)
    (http : Http) : Except PyErr Json × GustoAuth × List Request :=
  a.oauth cfg a.get true http

/-- `str(auth)` via `GustoAuth.__str__`, which returns
`self.refresh_token`: Python's `str()` protocol yields that string when the
held token is a string and raises `TypeError` otherwise (in particular when
the token is still `None`). -/
def GustoAuth.str (a : GustoAuth) : Except PyErr String :=
  match a.refresh_token with
  | .str s => .ok s
  | _ => .error (.typeError "__str__ returned non-string")

/-- `class Gusto`: holds the bearer access token supplied at
construction. -/
structure Gusto where
  access_token : String

/-- The headers sent with every `Gusto` GET:
`{"Accept": "application/json", "Authorization": f"Bearer {self.access_token}"}`. -/
def Gusto.authHeaders (g : Gusto) : List (String × String) :=
  [("Accept", "application/json"),
   ("Authorization", "Bearer " ++ g.access_token)]

/-- The GET issued by `Gusto.me()`: `requests.get(BASE_URL + "/v1/me", headers=...)`. -/
def meRequest (g : Gusto) : Request :=
  { method := "GET"
    url := BASE_URL ++ "/v1/me"
    headers := g.authHeaders
    body := none }

/-- `Gusto.me()`: GET `/v1/me` and return `response.json()`.  The status
code is never inspected: whatever response arrives, its parsed body (or the
parse failure) is the result; only a raise inside `requests.get`
propagates as an error before parsing. -/
def Gusto.me (g : Gusto) (http : Http) :
    Except PyErr Json × Gusto × List Request :=
  let req := meRequest g
  match http req with
  | .raised e => (.error e, g, [req])
  | .response _ jsonBody => (jsonBody, g, [req])

/-- The pure part of `Gusto.company_id()`: the subscript chain
`profile["roles"]["payroll_admin"]["companies"][0]["id"]` applied to a
parsed `/v1/me` body. -/
def companyIdOfProfile (profile : Json) : Except PyErr Json :=
  (((profile.getStr "roles").bind
      (fun r => r.getStr "payroll_admin")).bind
        (fun pa => pa.getStr "companies")).bind
          (fun cs => (cs.getIdx 0).bind (fun c0 => c0.getStr "id"))

/-- `Gusto.company_id()`:
`return self.me()["roles"]["payroll_admin"]["companies"][0]["id"]`. -/
def Gusto.company_id (g : Gusto) (http : Http) :
    Except PyErr Json × Gusto × List Request :=
  match g.me http with
  | (.error e, g', tr) => (.error e, g', tr)
  | (.ok profile, g', tr) => (companyIdOfProfile profile, g', tr)

/-- The GET issued by `Gusto.get_contractors()` once the company id `cid`
has been derived:
`requests.get(BASE_URL + f"/v1/companies/{self.company_id()}/contractors", headers=...)`. -/
def contractorsRequest (g : Gusto) (cid : Json) : Request :=
  { method := "GET"
    url := BASE_URL ++ "/v1/companies/" ++ cid.pyStr ++ "/contractors"
    headers := g.authHeaders
    body := none }

/-- `Gusto.get_contractors()`: derive the company id (one `/v1/me` round
trip), GET the contractors resource, return `response.json()`. -/
def Gusto.get_contractors (g : Gusto) (http : Http) :
    Except PyErr Json × Gusto × List Request :=
  match g.company_id http with
  | (.error e, g', tr) => (.error e, g', tr)
  | (.ok cid, g', tr) =>
    let req := contractorsRequest g' cid
    match http req with
    | .raised e => (.error e, g', tr ++ [req])
    | .response _ jsonBody => (jsonBody, g', tr ++ [req])

/-- The GET issued by `Gusto.get_employees()` once the company id `cid`
has been derived:
`requests.get(BASE_URL + f"/v1/companies/{self.company_id()}/employees", headers=...)`. -/
def employeesRequest (g : Gusto) (cid : Json) : Request :=
  { method := "GET"
    url := BASE_URL ++ "/v1/companies/" ++ cid.pyStr ++ "/employees"
    headers := g.authHeaders
    body := none }

/-- `Gusto.get_employees()`: derive the company id (one `/v1/me` round
trip), GET the employees resource, return `response.json()`. -/
def Gusto.get_employees (g : Gusto) (http : Http) :
    Except PyErr Json × Gusto × List Request :=
  match g.company_id http with
  | (.error e, g', tr) => (.error e, g', tr)
  | (.ok cid, g', tr) =>
    let req := employeesRequest g' cid
    match http req with
    | .raised e => (.error e, g', tr ++ [req])
    | .response _ jsonBody => (jsonBody, g', tr ++ [req])

/-- Whether an operation outcome is the spec's `OAuthExchangeError`. -/
def isOAuthExchangeErr : Except PyErr Json → Bool
  | .error (.oauthExchangeError _ _) => true
  | _ => false

/-- Whether an operation outcome is the spec's `MalformedProfileError`. -/
def isMalformedProfileErr : Except PyErr Json → Bool
  | .error .malformedProfile => true
  | _ => false

/-- Whether an operation outcome is the spec's `HttpError` (an exception
propagated from the HTTP collaborator). -/
def isHttpErr : Except PyErr Json → Bool
  | .error (.httpError _) => true
  | _ => false

/-- The generic Python data errors a subscript chain can raise:
`KeyError`, `IndexError`, `TypeError`. -/
def PyErr.isGenericData : PyErr → Bool
  | .keyError _ => true
  | .keyErrorIdx _ => true
  | .indexError => true
  | .typeError _ => true
  | _ => false

/-- Whether a JSON value is exactly the string `t`. -/
def Json.isStrVal : Json → String → Bool
  | .str s, t => s == t
  | _, _ => false

/-- Whether an operation outcome succeeded with exactly the string `t`. -/
def okStrIs : Except PyErr Json → String → Bool
  | .ok j, t => j.isStrVal t
  | _, _ => false

/-! ## Concrete fixtures for witnesses and counterexamples -/

/-- A fabricated process configuration. -/
def demoCfg : Config := ⟨"demo-client", "demo-secret"⟩

/-- Token endpoint answering every exchange with
`{access_token: "a1", refresh_token: "r2"}`. -/
def rotationHttp : Http := fun r =>
  if r.url = BASE_URL ++ "/oauth/token" then
    .response 200 (.ok (.obj [("access_token", .str "a1"),
                              ("refresh_token", .str "r2")]))
  else
    .raised (.httpError "unexpected request")

/-- Token endpoint answering with an `error` field but no
`error_description`. -/
def errorOnlyHttp : Http := fun r =>
  if r.url = BASE_URL ++ "/oauth/token" then
    .response 400 (.ok (.obj [("error", .str "invalid_grant")]))
  else
    .raised (.httpError "unexpected request")

/-- Token endpoint answering with both `error` and `error_description`. -/
def errorDescHttp : Http := fun r =>
  if r.url = BASE_URL ++ "/oauth/token" then
    .response 400 (.ok (.obj [("error", .str "invalid_grant"),
                              ("error_description", .str "bad code")]))
  else
    .raised (.httpError "unexpected request")

/-- Token endpoint answering with a `refresh_token` but no
`access_token` and no `error`. -/
def refreshOnlyHttp : Http := fun r =>
  if r.url = BASE_URL ++ "/oauth/token" then
    .response 200 (.ok (.obj [("refresh_token", .str "r2")]))
  else
    .raised (.httpError "unexpected request")

/-- Profile fixture: a payroll admin of companies `7` and `9`. -/
def demoProfile : Json :=
  .obj [("roles", .obj [("payroll_admin", .obj [("companies",
    .arr [.obj [("id", .num 7)], .obj [("id", .num 9)]])])])]

/-- Resource server fixture: serves `demoProfile` at `/v1/me` and company-7
contractor and employee lists. -/
def resourceHttp : Http := fun r =>
  if r.url = BASE_URL ++ "/v1/me" then
    .response 200 (.ok demoProfile)
  else if r.url = BASE_URL ++ "/v1/companies/7/contractors" then
    .response 200 (.ok (.arr [.str "contractor-1"]))
  else if r.url = BASE_URL ++ "/v1/companies/7/employees" then
    .response 200 (.ok (.arr [.str "employee-1", .str "employee-2"]))
  else
    .raised (.httpError "unexpected request")

/-- Profile server fixture answering `/v1/me` with an empty object. -/
def emptyProfileHttp : Http := fun r =>
  if r.url = BASE_URL ++ "/v1/me" then
    .response 200 (.ok (.obj []))
  else
    .raised (.httpError "unexpected request")

/-- Profile server fixture answering `/v1/me` with status 500 and a JSON
error body. -/
def status500Http : Http := fun r =>
  if r.url = BASE_URL ++ "/v1/me" then
    .response 500 (.ok (.obj [("error", .str "server-error")]))
  else
    .raised (.httpError "unexpected request")

/-! ## Shared helper lemmas -/

/-- `Gusto.me` always returns the object unchanged and issues exactly the
`/v1/me` request, whatever the collaborator does. -/
lemma me_frame (g : Gusto) (http : Http) :
    (g.me http).2.1 = g ∧ (g.me http).2.2 = [meRequest g] := by
  cases hx : http (meRequest g) <;> simp [Gusto.me, hx]

/-- `Gusto.company_id` always returns the object unchanged and issues
exactly the `/v1/me` request. -/
lemma company_id_frame (g : Gusto) (http : Http) :
    (g.company_id http).2.1 = g ∧ (g.company_id http).2.2 = [meRequest g] := by
  obtain ⟨h1, h2⟩ := me_frame g http
  rcases hme : g.me http with ⟨res, g2, tr⟩
  rw [hme] at h1 h2
  cases res <;> simp [Gusto.company_id, hme] <;> exact ⟨h1, h2⟩

/-- An error produced by `Except.bind` comes from the first or the second
stage. -/
lemma bind_error {α β : Type} {x : Except PyErr α} {f : α → Except PyErr β}
    {e : PyErr} (h : x.bind f = .error e) :
    x = .error e ∨ ∃ v, x = .ok v ∧ f v = .error e := by
  cases x with
  | error e2 =>
    left
    simpa [Except.bind] using h
  | ok v =>
    right
    exact ⟨v, rfl, h⟩

/-- String subscripting only raises the generic data errors. -/
lemma getStr_error_generic {j : Json} {k : String} {e : PyErr}
    (h : j.getStr k = .error e) : e.isGenericData = true := by
  cases j with
  | obj fields =>
    simp only [Json.getStr] at h
    cases hl : fields.lookup k with
    | some v => rw [hl] at h; cases h
    | none =>
      rw [hl] at h
      cases h
      rfl
  | null => cases h; rfl
  | bool b => cases h; rfl
  | num n => cases h; rfl
  | str s => cases h; rfl
  | arr xs => cases h; rfl

/-- Index subscripting only raises the generic data errors. -/
lemma getIdx_error_generic {j : Json} {i : Nat} {e : PyErr}
    (h : j.getIdx i = .error e) : e.isGenericData = true := by
  cases j with
  | arr xs =>
    simp only [Json.getIdx] at h
    cases hl : xs.get? i with
    | some v => rw [hl] at h; cases h
    | none =>
      rw [hl] at h
      cases h
      rfl
  | str s =>
    simp only [Json.getIdx] at h
    cases hl : s.toList.get? i with
    | some v => rw [hl] at h; cases h
    | none =>
      rw [hl] at h
      cases h
      rfl
  | obj fields => cases h; rfl
  | null => cases h; rfl
  | bool b => cases h; rfl
  | num n => cases h; rfl

/-- The `company_id` subscript chain only raises the generic data errors
(`KeyError` / `IndexError` / `TypeError`) — never a dedicated profile
error. -/
lemma companyIdOfProfile_error_generic {p : Json} {e : PyErr}
    (h : companyIdOfProfile p = .error e) : e.isGenericData = true := by
  unfold companyIdOfProfile at h
  rcases bind_error h with h1 | ⟨cs, _, h2⟩
  · rcases bind_error h1 with h3 | ⟨pa, _, h4⟩
    · rcases bind_error h3 with h5 | ⟨r, _, h6⟩
      · exact getStr_error_generic h5
      · exact getStr_error_generic h6
    · exact getStr_error_generic h4
  · rcases bind_error h2 with h3 | ⟨c0, _, h4⟩
    · exact getIdx_error_generic h3
    · exact getStr_error_generic h4

/-- The authorization header pair is among the headers of any request that
carries `g.authHeaders`. -/
lemma auth_pair_mem (g : Gusto) {r : Request} (h : r.headers = g.authHeaders) :
    ("Authorization", "Bearer " ++ g.access_token) ∈ r.headers := by
  rw [h]
  simp [Gusto.authHeaders]

/-- `Gusto.get_contractors` returns the object unchanged, and every request
it issues carries the object's auth headers. -/
lemma get_contractors_frame (g : Gusto) (http : Http) :
    (g.get_contractors http).2.1 = g
    ∧ ∀ r ∈ (g.get_contractors http).2.2, r.headers = g.authHeaders := by
  obtain ⟨h1, h2⟩ := company_id_frame g http
  rcases hc : g.company_id http with ⟨res, g2, tr⟩
  rw [hc] at h1 h2
  have h1' : g2 = g := h1
  have h2' : tr = [meRequest g] := h2
  subst h1'
  subst h2'
  cases res with
  | error e =>
    refine ⟨by simp [Gusto.get_contractors, hc], ?_⟩
    intro r hr
    simp [Gusto.get_contractors, hc] at hr
    subst hr
    rfl
  | ok cid =>
    cases hreq : http (contractorsRequest g2 cid) with
    | response s body =>
      refine ⟨by simp [Gusto.get_contractors, hc, hreq], ?_⟩
      intro r hr
      simp [Gusto.get_contractors, hc, hreq] at hr
      rcases hr with rfl | rfl <;> rfl
    | raised e =>
      refine ⟨by simp [Gusto.get_contractors, hc, hreq], ?_⟩
      intro r hr
      simp [Gusto.get_contractors, hc, hreq] at hr
      rcases hr with rfl | rfl <;> rfl

/-- `Gusto.get_employees` returns the object unchanged, and every request
it issues carries the object's auth headers. -/
lemma get_employees_frame (g : Gusto) (http : Http) :
    (g.get_employees http).2.1 = g
    ∧ ∀ r ∈ (g.get_employees http).2.2, r.headers = g.authHeaders := by
  obtain ⟨h1, h2⟩ := company_id_frame g http
  rcases hc : g.company_id http with ⟨res, g2, tr⟩
  rw [hc] at h1 h2
  have h1' : g2 = g := h1
  have h2' : tr = [meRequest g] := h2
  subst h1'
  subst h2'
  cases res with
  | error e =>
    refine ⟨by simp [Gusto.get_employees, hc], ?_⟩
    intro r hr
    simp [Gusto.get_employees, hc] at hr
    subst hr
    rfl
  | ok cid =>
    cases hreq : http (employeesRequest g2 cid) with
    | response s body =>
      refine ⟨by simp [Gusto.get_employees, hc, hreq], ?_⟩
      intro r hr
      simp [Gusto.get_employees, hc, hreq] at hr
      rcases hr with rfl | rfl <;> rfl
    | raised e =>
      refine ⟨by simp [Gusto.get_employees, hc, hreq], ?_⟩
      intro r hr
      simp [Gusto.get_employees, hc, hreq] at hr
      rcases hr with rfl | rfl <;> rfl

/-! ## Claim theorems -/

/-- C1 (counterexample): a token-endpoint response whose body contains an
`error` field but no `error_description` makes `oauth` fail with a
`KeyError` on `"error_description"`, not with the two-argument
`OAuthExchangeError`, because the source evaluates
`response.json()["error_description"]` unconditionally when raising. -/
theorem oauth_error_without_description_cx :
    (GustoAuth.mk (.str "r0")).oauth demoCfg (.str "c0") false errorOnlyHttp
      = (.error (.keyError "error_description"), GustoAuth.mk (.str "r0"),
         [oauthRequest demoCfg (.str "c0") false])
    ∧ isOAuthExchangeErr
        ((GustoAuth.mk (.str "r0")).oauth demoCfg (.str "c0") false errorOnlyHttp).1
      = false :=
  ⟨rfl, rfl⟩

/-- C1 (amended): for every token-endpoint response whose body contains an
`error` field, `oauth` (in either grant mode) fails and leaves the held
refresh token unchanged; when the body also contains `error_description`
the failure is the `OAuthExchangeError` carrying the provider's error code
and description, and when it does not the failure is a `KeyError` on
`"error_description"`. -/
theorem oauth_error_response_behaviour
    (a : GustoAuth) (cfg : Config) (token : Json) (refresh : Bool)
    (http : Http) (s : Nat) (fields : List (String × Json)) (code : Json)
    (hresp : http (oauthRequest cfg token refresh) = .response s (.ok (.obj fields)))
    (hcode : fields.lookup "error" = some code) :
    (∀ description, fields.lookup "error_description" = some description →
        a.oauth cfg token refresh http
          = (.error (.oauthExchangeError code description), a,
             [oauthRequest cfg token refresh]))
    ∧ (fields.lookup "error_description" = none →
        a.oauth cfg token refresh http
          = (.error (.keyError "error_description"), a,
             [oauthRequest cfg token refresh]))
    ∧ (a.oauth cfg token refresh http).2.1.get = a.get := by
  refine ⟨?_, ?_, ?_⟩
  · intro description hd
    simp [GustoAuth.oauth, hresp, hcode, hd]
  · intro hd
    simp [GustoAuth.oauth, hresp, hcode, hd]
  · cases hd : fields.lookup "error_description" <;>
      simp [GustoAuth.oauth, hresp, hcode, hd]

/-- C1 (witness): a concrete failed exchange carrying the provider's error
code and description, with the held token untouched. -/
theorem oauth_error_response_behaviour_witness :
    (GustoAuth.mk (.str "r0")).oauth demoCfg (.str "c0") false errorDescHttp
      = (.error (.oauthExchangeError (.str "invalid_grant") (.str "bad code")),
         GustoAuth.mk (.str "r0"), [oauthRequest demoCfg (.str "c0") false]) :=
  (oauth_error_response_behaviour (GustoAuth.mk (.str "r0")) demoCfg
    (.str "c0") false errorDescHttp 400
    [("error", .str "invalid_grant"), ("error_description", .str "bad code")]
    (.str "invalid_grant") rfl rfl).1 (.str "bad code") rfl

/-- C2: on every successful exchange — any grant mode, any prior state —
the held refresh token afterwards is exactly the `refresh_token` field of
the response: `get()` returns it, wholesale overwriting whatever was held
before. -/
theorem oauth_success_updates_refresh_token
    (a : GustoAuth) (cfg : Config) (token : Json) (refresh : Bool)
    (http : Http) (s : Nat) (fields : List (String × Json)) (rt at_ : Json)
    (hresp : http (oauthRequest cfg token refresh) = .response s (.ok (.obj fields)))
    (herr : fields.lookup "error" = none)
    (hrt : fields.lookup "refresh_token" = some rt)
    (hat : fields.lookup "access_token" = some at_) :
    a.oauth cfg token refresh http
      = (.ok at_, { refresh_token := rt }, [oauthRequest cfg token refresh])
      ∧ (a.oauth cfg token refresh http).2.1.get = rt := by
  have h : a.oauth cfg token refresh http
      = (.ok at_, { refresh_token := rt }, [oauthRequest cfg token refresh]) := by
    simp only [GustoAuth.oauth, hresp, herr, hrt, hat, GustoAuth.put]
  exact ⟨h, by rw [h]; rfl⟩

/-- C2 (witness): a concrete refresh that overwrites the held token `"r1"`
with the response's `"r2"`. -/
theorem oauth_success_updates_refresh_token_witness :
    (GustoAuth.mk (.str "r1")).oauth demoCfg (.str "r1") true rotationHttp
      = (.ok (.str "a1"), { refresh_token := .str "r2" },
         [oauthRequest demoCfg (.str "r1") true]) :=
  (oauth_success_updates_refresh_token (GustoAuth.mk (.str "r1")) demoCfg
    (.str "r1") true rotationHttp 200
    [("access_token", .str "a1"), ("refresh_token", .str "r2")]
    (.str "r2") (.str "a1") rfl rfl rfl rfl).1

/-- C3 (counterexample): a response with no `error` field that carries a
`refresh_token` but lacks `access_token` makes the exchange fail — yet the
held refresh token has already been overwritten: starting from `"r1"`, the
failed call leaves `get()` returning `"r2"`, not `"r1"`.  `put` ran on a
failing exchange. -/
theorem oauth_partial_mutation_cx :
    (GustoAuth.mk (.str "r1")).oauth demoCfg (.str "r1") true refreshOnlyHttp
      = (.error (.keyError "access_token"), GustoAuth.mk (.str "r2"),
         [oauthRequest demoCfg (.str "r1") true])
    ∧ (((GustoAuth.mk (.str "r1")).oauth demoCfg
          (.str "r1") true refreshOnlyHttp).2.1.get.isStrVal "r2" = true)
    ∧ (((GustoAuth.mk (.str "r1")).oauth demoCfg
          (.str "r1") true refreshOnlyHttp).2.1.get.isStrVal "r1" = false) :=
  ⟨rfl, rfl, rfl⟩

/-- C3 (amended): the held refresh token changes only when an error-free
response supplies a `refresh_token` field, in which case it becomes exactly
that field via `put` — whether or not the exchange then completes.  Every
exchange failing before that point (transport failure, unparseable or
non-dict body, body with `error`, body missing `refresh_token`) leaves the
state unchanged; but a failure on a missing `access_token` happens after
`put` has already run. -/
theorem oauth_state_mutation_characterization
    (a : GustoAuth) (cfg : Config) (token : Json) (refresh : Bool)
    (http : Http) :
    (a.oauth cfg token refresh http).2.1 = a
    ∨ ∃ s fields rt,
        http (oauthRequest cfg token refresh) = .response s (.ok (.obj fields))
        ∧ fields.lookup "error" = none
        ∧ fields.lookup "refresh_token" = some rt
        ∧ (a.oauth cfg token refresh http).2.1 = a.put rt := by
  rcases hhttp : http (oauthRequest cfg token refresh) with ⟨s, jsonBody⟩ | e
  · rcases jsonBody with e | j
    · left; simp [GustoAuth.oauth, hhttp]
    · cases j with
      | obj fields =>
        cases herr : fields.lookup "error" with
        | some code =>
          cases hd : fields.lookup "error_description" <;>
            · left; simp [GustoAuth.oauth, hhttp, herr, hd]
        | none =>
          cases hrt : fields.lookup "refresh_token" with
          | none => left; simp [GustoAuth.oauth, hhttp, herr, hrt]
          | some rt =>
            right
            refine ⟨s, fields, rt, rfl, herr, hrt, ?_⟩
            cases hat : fields.lookup "access_token" <;>
              simp [GustoAuth.oauth, hhttp, herr, hrt, hat, GustoAuth.put]
      | null => left; simp [GustoAuth.oauth, hhttp]
      | bool b => left; simp [GustoAuth.oauth, hhttp]
      | num n => left; simp [GustoAuth.oauth, hhttp]
      | str s2 => left; simp [GustoAuth.oauth, hhttp]
      | arr xs => left; simp [GustoAuth.oauth, hhttp]
  · left; simp [GustoAuth.oauth, hhttp]

/-- C4: on a successful exchange, both `authorize(code)` and
`access_token()` return exactly the `access_token` field of the
token-endpoint response — and hence never the `refresh_token` field when
the two differ. -/
theorem wrappers_return_access_token_field
    (a : GustoAuth) (cfg : Config) (code : Json) (http : Http)
    (s1 s2 : Nat) (f1 f2 : List (String × Json)) (rt1 at1 rt2 at2 : Json)
    (hr1 : http (oauthRequest cfg code false) = .response s1 (.ok (.obj f1)))
    (he1 : f1.lookup "error" = none)
    (hrt1 : f1.lookup "refresh_token" = some rt1)
    (hat1 : f1.lookup "access_token" = some at1)
    (hr2 : http (oauthRequest cfg a.get true) = .response s2 (.ok (.obj f2)))
    (he2 : f2.lookup "error" = none)
    (hrt2 : f2.lookup "refresh_token" = some rt2)
    (hat2 : f2.lookup "access_token" = some at2) :
    ((a.authorize cfg code http).1 = .ok at1
      ∧ (at1 ≠ rt1 → (a.authorize cfg code http).1 ≠ .ok rt1))
    ∧ ((a.access_token cfg http).1 = .ok at2
      ∧ (at2 ≠ rt2 → (a.access_token cfg http).1 ≠ .ok rt2)) := by
  have h1 : (a.authorize cfg code http).1 = .ok at1 := by
    simp [GustoAuth.authorize, GustoAuth.oauth, hr1, he1, hrt1, hat1]
  have h2 : (a.access_token cfg http).1 = .ok at2 := by
    simp [GustoAuth.access_token, GustoAuth.oauth, hr2, he2, hrt2, hat2]
  refine ⟨⟨h1, fun hne hcontra => hne ?_⟩, ⟨h2, fun hne hcontra => hne ?_⟩⟩
  · exact Except.ok.inj (h1 ▸ hcontra)
  · exact Except.ok.inj (h2 ▸ hcontra)

/-- C4 (witness): concrete exchanges through both wrappers return the
`access_token` `"a1"`, distinct from the `refresh_token` `"r2"`. -/
theorem wrappers_return_access_token_field_witness :
    ((GustoAuth.mk (.str "r1")).authorize demoCfg (.str "c0") rotationHttp).1
      = .ok (.str "a1")
    ∧ ((GustoAuth.mk (.str "r1")).access_token demoCfg rotationHttp).1
      = .ok (.str "a1") :=
  ⟨(wrappers_return_access_token_field (GustoAuth.mk (.str "r1")) demoCfg
      (.str "c0") rotationHttp 200 200
      [("access_token", .str "a1"), ("refresh_token", .str "r2")]
      [("access_token", .str "a1"), ("refresh_token", .str "r2")]
      (.str "r2") (.str "a1") (.str "r2") (.str "a1")
      rfl rfl rfl rfl rfl rfl rfl rfl).1.1,
   (wrappers_return_access_token_field (GustoAuth.mk (.str "r1")) demoCfg
      (.str "c0") rotationHttp 200 200
      [("access_token", .str "a1"), ("refresh_token", .str "r2")]
      [("access_token", .str "a1"), ("refresh_token", .str "r2")]
      (.str "r2") (.str "a1") (.str "r2") (.str "a1")
      rfl rfl rfl rfl rfl rfl rfl rfl).2.1⟩

/-- C5: `authorize(code)` is extensionally `oauth(code, refresh=False)`
and `access_token()` is extensionally `oauth(get(), refresh=True)`; and in
the concrete rotation scenario — held token `"r1"`, response
`{access_token: "a1", refresh_token: "r2"}` — the refresh returns `"a1"`,
`get()` afterwards returns `"r2"`, and a second `access_token()` call
sends `"r2"`, not `"r1"`, as the `refresh_token` of its request body. -/
theorem wrappers_are_exchange_and_rotation_scenario :
    (∀ (a : GustoAuth) (cfg : Config) (token : Json) (http : Http),
        a.authorize cfg token http = a.oauth cfg token false http
        ∧ a.access_token cfg http = a.oauth cfg a.get true http)
    ∧ ((GustoAuth.mk (.str "r1")).access_token demoCfg rotationHttp).1
        = .ok (.str "a1")
    ∧ ((GustoAuth.mk (.str "r1")).access_token demoCfg rotationHttp).2.1.get
        = .str "r2"
    ∧ ((((GustoAuth.mk (.str "r1")).access_token demoCfg rotationHttp).2.1.access_token
          demoCfg rotationHttp).2.2)
        = [oauthRequest demoCfg (.str "r2") true]
    ∧ okStrIs
        ((tokenRequestBody demoCfg (.str "r2") true).getStr "refresh_token")
        "r2" = true
    ∧ okStrIs
        ((tokenRequestBody demoCfg (.str "r2") true).getStr "refresh_token")
        "r1" = false :=
  ⟨fun _ _ _ _ => ⟨rfl, rfl⟩, rfl, rfl, rfl, rfl, rfl⟩

/-- C6 (counterexample): on a profile lacking the
`roles.payroll_admin.companies[0].id` path, `company_id` fails with the
generic `KeyError("roles")`, not with a `MalformedProfileError`. -/
theorem company_id_missing_path_cx :
    (Gusto.mk "tok").company_id emptyProfileHttp
      = (.error (.keyError "roles"), Gusto.mk "tok",
         [meRequest (Gusto.mk "tok")])
    ∧ isMalformedProfileErr
        ((Gusto.mk "tok").company_id emptyProfileHttp).1 = false :=
  ⟨rfl, rfl⟩

/-- C6 (amended): when the `/v1/me` body contains the path
`roles.payroll_admin.companies[0].id`, `company_id` returns exactly that
field's value; when the path is absent it fails with a generic data error
(`KeyError` / `IndexError` / `TypeError`) — the source has no
`MalformedProfileError`, so no failure ever carries one. -/
theorem company_id_path_extraction
    (g : Gusto) (http : Http) (s : Nat)
    (profile roles pa companies c0 v : Json)
    (hresp : http (meRequest g) = .response s (.ok profile))
    (hroles : profile.getStr "roles" = .ok roles)
    (hpa : roles.getStr "payroll_admin" = .ok pa)
    (hcs : pa.getStr "companies" = .ok companies)
    (hc0 : companies.getIdx 0 = .ok c0)
    (hid : c0.getStr "id" = .ok v) :
    (g.company_id http).1 = .ok v
    ∧ ∀ (p : Json) (e : PyErr),
        companyIdOfProfile p = .error e → e.isGenericData = true := by
  have hpure : companyIdOfProfile profile = .ok v := by
    simp only [companyIdOfProfile, hroles, hpa, hcs, hc0, hid, Except.bind]
  constructor
  · simp [Gusto.company_id, Gusto.me, hresp, hpure]
  · intro p e h
    exact companyIdOfProfile_error_generic h

/-- C6 (witness): `company_id` on `demoProfile` returns the first
company's id `7`, and a concrete missing-path failure carries a generic
`KeyError`. -/
theorem company_id_path_extraction_witness :
    ((Gusto.mk "tok").company_id resourceHttp).1 = .ok (.num 7)
    ∧ PyErr.isGenericData (.keyError "roles") = true :=
  ⟨(company_id_path_extraction (Gusto.mk "tok") resourceHttp 200
      demoProfile
      (.obj [("payroll_admin", .obj [("companies",
        .arr [.obj [("id", .num 7)], .obj [("id", .num 9)]])])])
      (.obj [("companies", .arr [.obj [("id", .num 7)], .obj [("id", .num 9)]])])
      (.arr [.obj [("id", .num 7)], .obj [("id", .num 9)]])
      (.obj [("id", .num 7)]) (.num 7)
      rfl rfl rfl rfl rfl rfl).1,
   (company_id_path_extraction (Gusto.mk "tok") resourceHttp 200
      demoProfile
      (.obj [("payroll_admin", .obj [("companies",
        .arr [.obj [("id", .num 7)], .obj [("id", .num 9)]])])])
      (.obj [("companies", .arr [.obj [("id", .num 7)], .obj [("id", .num 9)]])])
      (.arr [.obj [("id", .num 7)], .obj [("id", .num 9)]])
      (.obj [("id", .num 7)]) (.num 7)
      rfl rfl rfl rfl rfl rfl).2 (.obj []) (.keyError "roles") rfl⟩

/-- C7 (counterexample): a non-2xx `/v1/me` response does not make `me()`
fail — the 500-status JSON body is returned as the parsed profile, and no
`HttpError` is raised, because the source never inspects the status
code. -/
theorem me_non_success_status_cx :
    (Gusto.mk "tok").me status500Http
      = (.ok (.obj [("error", .str "server-error")]), Gusto.mk "tok",
         [meRequest (Gusto.mk "tok")])
    ∧ isHttpErr ((Gusto.mk "tok").me status500Http).1 = false :=
  ⟨rfl, rfl⟩

/-- C7 (amended): `me()` fails only when the HTTP collaborator itself
raises (transport failure), propagating that error unchanged; for every
received response — any status code — it returns the outcome of parsing
the body as JSON. -/
theorem me_transport_and_response_behaviour (g : Gusto) (http : Http) :
    (∀ e, http (meRequest g) = .raised e →
        g.me http = (.error e, g, [meRequest g]))
    ∧ (∀ s jsonBody, http (meRequest g) = .response s jsonBody →
        g.me http = (jsonBody, g, [meRequest g])) := by
  constructor
  · intro e h
    simp [Gusto.me, h]
  · intro s jsonBody h
    simp [Gusto.me, h]

/-- C7 (witness): a concrete transport failure propagates out of `me()`. -/
theorem me_transport_and_response_behaviour_witness :
    (Gusto.mk "tok").me (fun _ => .raised (.httpError "connection refused"))
      = (.error (.httpError "connection refused"), Gusto.mk "tok",
         [meRequest (Gusto.mk "tok")]) :=
  (me_transport_and_response_behaviour (Gusto.mk "tok")
    (fun _ => .raised (.httpError "connection refused"))).1
    (.httpError "connection refused") rfl

/-- C8: a successful `get_contractors()` or `get_employees()` invocation
issues exactly one GET to `/v1/me` followed by exactly one GET to the
corresponding company-scoped endpoint — the company id re-derived from the
`/v1/me` body of that very invocation — and returns the resource response
body as parsed, with no transformation. -/
theorem resource_calls_trace_and_passthrough
    (g : Gusto) (http : Http) (s1 s2 s3 : Nat)
    (profile cid cbody ebody : Json)
    (hme : http (meRequest g) = .response s1 (.ok profile))
    (hcid : companyIdOfProfile profile = .ok cid)
    (hcon : http (contractorsRequest g cid) = .response s2 (.ok cbody))
    (hemp : http (employeesRequest g cid) = .response s3 (.ok ebody)) :
    g.get_contractors http
      = (.ok cbody, g, [meRequest g, contractorsRequest g cid])
    ∧ g.get_employees http
      = (.ok ebody, g, [meRequest g, employeesRequest g cid]) := by
  constructor
  · simp [Gusto.get_contractors, Gusto.company_id, Gusto.me, hme, hcid, hcon]
  · simp [Gusto.get_employees, Gusto.company_id, Gusto.me, hme, hcid, hemp]

/-- C8 (witness): concrete invocations against `resourceHttp` issue the
`/v1/me` call plus one company-7 resource call each and return the
fixture bodies unchanged. -/
theorem resource_calls_trace_and_passthrough_witness :
    (Gusto.mk "tok").get_contractors resourceHttp
      = (.ok (.arr [.str "contractor-1"]), Gusto.mk "tok",
         [meRequest (Gusto.mk "tok"),
          contractorsRequest (Gusto.mk "tok") (.num 7)])
    ∧ (Gusto.mk "tok").get_employees resourceHttp
      = (.ok (.arr [.str "employee-1", .str "employee-2"]), Gusto.mk "tok",
         [meRequest (Gusto.mk "tok"),
          employeesRequest (Gusto.mk "tok") (.num 7)]) :=
  resource_calls_trace_and_passthrough (Gusto.mk "tok") resourceHttp
    200 200 200 demoProfile (.num 7)
    (.arr [.str "contractor-1"]) (.arr [.str "employee-1", .str "employee-2"])
    rfl rfl rfl rfl

/-- C9: no `Gusto` operation ever modifies the stored access token — after
`me`, `company_id`, `get_contractors` or `get_employees`, succeeding or
failing, the object equals the one built at construction — and every HTTP
request any of them sends carries exactly that token in its Bearer
`Authorization` header. -/
theorem api_operations_preserve_access_token (g : Gusto) (http : Http) :
    ((g.me http).2.1 = g
      ∧ ∀ r ∈ (g.me http).2.2,
          ("Authorization", "Bearer " ++ g.access_token) ∈ r.headers)
    ∧ ((g.company_id http).2.1 = g
      ∧ ∀ r ∈ (g.company_id http).2.2,
          ("Authorization", "Bearer " ++ g.access_token) ∈ r.headers)
    ∧ ((g.get_contractors http).2.1 = g
      ∧ ∀ r ∈ (g.get_contractors http).2.2,
          ("Authorization", "Bearer " ++ g.access_token) ∈ r.headers)
    ∧ ((g.get_employees http).2.1 = g
      ∧ ∀ r ∈ (g.get_employees http).2.2,
          ("Authorization", "Bearer " ++ g.access_token) ∈ r.headers) := by
  obtain ⟨hme1, hme2⟩ := me_frame g http
  obtain ⟨hci1, hci2⟩ := company_id_frame g http
  obtain ⟨hgc1, hgc2⟩ := get_contractors_frame g http
  obtain ⟨hge1, hge2⟩ := get_employees_frame g http
  refine ⟨⟨hme1, ?_⟩, ⟨hci1, ?_⟩, ⟨hgc1, fun r hr => auth_pair_mem g (hgc2 r hr)⟩,
          ⟨hge1, fun r hr => auth_pair_mem g (hge2 r hr)⟩⟩
  · intro r hr
    rw [hme2] at hr
    simp only [List.mem_singleton] at hr
    exact auth_pair_mem g (by rw [hr]; rfl)
  · intro r hr
    rw [hci2] at hr
    simp only [List.mem_singleton] at hr
    exact auth_pair_mem g (by rw [hr]; rfl)

/-- C9 (witness): a concrete `me()` call leaves the object unchanged and
its one request carries the Bearer header for the constructed token. -/
theorem api_operations_preserve_access_token_witness :
    ((Gusto.mk "tok").me resourceHttp).2.1 = Gusto.mk "tok"
    ∧ ("Authorization", "Bearer " ++ (Gusto.mk "tok").access_token)
        ∈ (meRequest (Gusto.mk "tok")).headers :=
  ⟨(api_operations_preserve_access_token (Gusto.mk "tok") resourceHttp).1.1,
   (api_operations_preserve_access_token (Gusto.mk "tok") resourceHttp).1.2
     (meRequest (Gusto.mk "tok"))
     (by rw [(me_frame (Gusto.mk "tok") resourceHttp).2]
         exact List.mem_singleton.mpr rfl)⟩

/-- C10: `str()` of a `GustoAuth` returns the held refresh token itself
when it is a string, and for an instance constructed without a refresh
token (`None` held) and never updated the conversion fails with a
`TypeError` rather than producing a string. -/
theorem str_returns_held_token :
    (∀ (a : GustoAuth) (s : String), a.refresh_token = .str s → a.str = .ok s)
    ∧ (GustoAuth.mk .null).str
        = .error (.typeError "__str__ returned non-string") := by
  constructor
  · intro a s h
    simp [GustoAuth.str, h]
  · rfl

/-- C10 (witness): a held string token converts to itself. -/
theorem str_returns_held_token_witness :
    (GustoAuth.mk (.str "tok")).str = .ok "tok" :=
  str_returns_held_token.1 (GustoAuth.mk (.str "tok")) "tok" rfl
